import Mathlib

/-!
# AgriGuide backend: shallow embedding and verification

A shallow embedding of the AgriGuide Django backend (`agriguide_ai`), covering
the chat-session flow (`views.py`), the daily-tip cache (`ai_tip_views.py`),
the community feed (`community_views.py`, `models.py`), and the tutorial
catalog (`lms_views.py`, `serializers.py`, `models.py`).

Database tables are lists of rows; the wall clock is a `Nat` counter that
advances on every row write, standing in for `auto_now` / `auto_now_add`
timestamps.  The external Gemini model is an oracle `List String → Option
String` (the messages sent on a fresh chat ↦ the reply text, `none` when the
call raises).  `random.choice` is an arbitrary index oracle.
-/

set_option linter.unusedVariables false

namespace AgriGuide

/-! ## List helpers: `order_by` as a stable insertion sort on a `Nat` key -/

def insertByKey {α : Type} (key : α → Nat) (a : α) : List α → List α
  | [] => [a]
  | b :: bs => if key a ≤ key b then a :: b :: bs else b :: insertByKey key a bs

/-- `QuerySet.order_by` on an ascending `Nat` key (e.g. `created_at`). -/
def sortByKey {α : Type} (key : α → Nat) : List α → List α
  | [] => []
  | a :: as => insertByKey key a (sortByKey key as)

/-- `QuerySet.order_by` on a descending key (e.g. `'-updated_at'`). -/
def sortByKeyDesc {α : Type} (key : α → Nat) (l : List α) : List α :=
  (sortByKey key l).reverse

theorem sortByKey_eq_self {α : Type} (key : α → Nat) (l : List α)
    (h : List.Pairwise (fun x y => key x < key y) l) : sortByKey key l = l := by
  induction l with
  | nil => rfl
  | cons a l ih =>
    have h1 := List.pairwise_cons.mp h
    rw [sortByKey, ih h1.2]
    cases l with
    | nil => rfl
    | cons b bs =>
      have hab : key a ≤ key b := Nat.le_of_lt (h1.1 b (by simp))
      simp [insertByKey, hab]

/-! ## String helpers: Python's `str.strip()` / `str.lower()` -/

/-- Python's `str.strip()`: drop leading and trailing whitespace, modelled on
the string's character list. -/
def pyStrip (s : String) : String :=
  ⟨((s.data.dropWhile Char.isWhitespace).reverse.dropWhile Char.isWhitespace).reverse⟩

/-- Python's `str.lower()`, modelled on the string's character list. -/
def pyLower (s : String) : String :=
  ⟨s.data.map Char.toLower⟩

/-! ## Data model: chat (`models.py`, `ChatSession` / `ChatMessage`) -/

/-- A `ChatSession` row (`models.py` 150-167).  `session_id` is declared
`unique=True`; `updated_at` has `auto_now=True`. -/
structure ChatSessionRow where
  userId : Nat
  sessionId : String
  createdAt : Nat
  updatedAt : Nat
  isActive : Bool
  deriving Repr, DecidableEq

/-- A `ChatMessage` row (`models.py` 170-189), keyed to its session by the
session identifier; `created_at` has `auto_now_add=True`. -/
structure ChatMessageRow where
  sessionId : String
  role : String
  message : String
  createdAt : Nat
  deriving Repr, DecidableEq

structure ChatDb where
  sessions : List ChatSessionRow
  messages : List ChatMessageRow
  clock : Nat
  deriving Repr, DecidableEq

/-- Well-formed database: rows were appended with strictly increasing
`created_at` stamps below the current clock, and session identifiers are
unique (the `unique=True` column constraint). -/
def ChatDb.WF (db : ChatDb) : Prop :=
  List.Pairwise (fun m1 m2 => m1.createdAt < m2.createdAt) db.messages ∧
  (∀ m ∈ db.messages, m.createdAt < db.clock) ∧
  (∀ s ∈ db.sessions, s.updatedAt < db.clock) ∧
  List.Pairwise (fun s1 s2 => s1.sessionId ≠ s2.sessionId) db.sessions

/-- `ChatSession.objects.get(session_id=…, user=…)` (`views.py` 112-115,
220-223, 263-266, 288-291): `session_id` is unique so at most one row can
match; `DoesNotExist` — raised both when no row has this id and when the row
belongs to another user — is modelled as `none`. -/
def sessionGet (db : ChatDb) (uid : Nat) (sid : String) : Option ChatSessionRow :=
  db.sessions.find? (fun s => s.sessionId == sid && s.userId == uid)

/-- `ChatMessage.objects.filter(session=chat_session).order_by('created_at')`
(`views.py` 130-132 and 225-227). -/
def historyMessages (db : ChatDb) (sid : String) : List ChatMessageRow :=
  sortByKey (fun m => m.createdAt) (db.messages.filter (fun m => m.sessionId == sid))

/-- `ChatMessage.objects.create(session=…, role=…, message=…)`
(`views.py` 166-176). -/
def createMessage (db : ChatDb) (sid role msg : String) : ChatDb :=
  { db with
    messages := db.messages ++ [{ sessionId := sid, role := role, message := msg,
                                  createdAt := db.clock }],
    clock := db.clock + 1 }

/-- `chat_session.save()` (`views.py` 179): `updated_at` is `auto_now`, so the
save refreshes it to the current time.  The row is addressed by its unique
`session_id`. -/
def touchSession (db : ChatDb) (sid : String) : ChatDb :=
  { db with
    sessions := db.sessions.map (fun s =>
      if s.sessionId == sid then { s with updatedAt := db.clock } else s),
    clock := db.clock + 1 }

/-! ## `views.py`: the chat endpoints -/

def SYSTEM_INSTRUCTION : String := "
You are **AgriGuide AI**, an expert agricultural advisor specializing in farming practices, crop management, pest control, soil health, irrigation, and sustainable agriculture. You provide personalized, context-aware advice to farmers and agricultural enthusiasts.

## Core Identity
- **Name**: AgriGuide AI
- **Expertise**: Agriculture, farming, horticulture, agronomy, livestock management, sustainable farming
- **Tone**: Friendly, professional, encouraging, and supportive
- **Communication Style**: Clear, practical, and actionable advice with specific steps when possible

## Memory Simulation Instructions

To simulate memory across conversations:

1. **Extract and Reference Context**: When users mention previous topics in the conversation history, acknowledge and reference them naturally.
   - Example: \"Based on what you mentioned earlier about your tomato plants...\"

2. **Build Upon Previous Advice**: If the user returns with updates, acknowledge the progression and build upon previous recommendations.

3. **Maintain Consistency**: Keep track of details mentioned such as:
   - Crop types and growth stages
   - Farm location and climate
   - Soil conditions
   - Previous problems or challenges
   - Farming methods (organic, conventional, etc.)

4. **Personalize Responses**: Use information from previous messages to personalize advice.

5. **Ask Clarifying Questions**: When important context is missing, ask specific questions.

## Response Guidelines

### Formatting for Better Readability
- Use **bold** for important terms and key points
- Use bullet points (•) for lists of items
- Use numbered lists for sequential steps
- Use headers (##) for major sections in long responses
- Use `inline code` for technical terms, measurements, or chemical names

### Response Structure
1. **Acknowledge the Query**: Show you understand the question/problem
2. **Provide Context**: Brief explanation of why this matters
3. **Give Actionable Advice**: Step-by-step instructions when applicable
4. **Add Preventive Tips**: Help avoid future issues
5. **Follow-up**: Encourage users to update you on progress

## Important Constraints
1. **Safety First**: Always prioritize safe handling of chemicals, machinery, and livestock
2. **Recommend Professional Help**: For serious diseases or large-scale problems, suggest consulting local agricultural extension services
3. **Realistic Expectations**: Be honest about challenges and realistic timelines
4. **Cost Awareness**: Consider budget constraints when recommending solutions

## Conversational Memory Phrases
Use these patterns to create the illusion of memory:
- \"Following up on your [previous topic]...\"
- \"Since you mentioned you\x27re growing [crop]...\"
- \"Based on your earlier description of [situation]...\"
- \"How did [previous recommendation] work out?\"

Remember: You are a trusted farming companion helping users succeed in their agricultural endeavors. Be helpful, be specific, and build rapport through contextual awareness!
"

/-- The `contents` list assembled in `chat_with_ai` (`views.py` 134-148): the
stored history in creation order, then the current message, each tagged with
its role.  (Note: the source builds this list but never passes it to the
model.) -/
def buildContents (db : ChatDb) (sid : String) (message : String) :
    List (String × String) :=
  (historyMessages db sid).map (fun m => (m.role, m.message)) ++ [("user", message)]

/-- The messages actually sent to the Gemini model in one turn
(`views.py` 150-161): `model.start_chat(history=[])`, then
`chat.send_message(SYSTEM_INSTRUCTION)`, then `chat.send_message(message)`. -/
def modelCallPayload (message : String) : List String :=
  [SYSTEM_INSTRUCTION, message]

inductive ChatResponse where
  | ok (response : String) (sessionId : String)
  | badRequest (error : String)
  | notFound (error : String)
  | serverError (error : String)
  deriving Repr, DecidableEq

def ChatResponse.status : ChatResponse → Nat
  | .ok _ _ => 200
  | .badRequest _ => 400
  | .notFound _ => 404
  | .serverError _ => 500

structure ChatRequestBody where
  message : String
  sessionId : Option String
  deriving Repr, DecidableEq

/-- Session resolution in `chat_with_ai` (`views.py` 109-127): an explicit
`session_id` must resolve through `sessionGet` (404 otherwise, modelled as
`none`); with no `session_id` a fresh session is created under a newly
generated UUID (`freshSessionId`). -/
def resolveSession (db : ChatDb) (uid : Nat) (sessionId : Option String)
    (freshSessionId : String) : Option (ChatSessionRow × ChatDb) :=
  match sessionId with
  | some sid =>
    match sessionGet db uid sid with
    | none => none
    | some s => some (s, db)
  | none =>
    let s : ChatSessionRow :=
      { userId := uid, sessionId := freshSessionId, createdAt := db.clock,
        updatedAt := db.clock, isActive := true }
    some (s, { db with sessions := db.sessions ++ [s], clock := db.clock + 1 })

/-- `chat_with_ai` (`views.py` 89-189).  `ai` is the external-model oracle:
it receives the messages sent on the fresh chat and returns the reply text,
or `none` when the call raises (then the view lands in its `except` branch
and answers HTTP 500 with the exception text). -/
def chatWithAi (db : ChatDb) (uid : Nat) (body : ChatRequestBody)
    (freshSessionId : String) (ai : List String → Option String) :
    ChatResponse × ChatDb :=
  let message := pyStrip body.message
  if message = "" then (.badRequest "Message is required", db)
  else
    match resolveSession db uid body.sessionId freshSessionId with
    | none => (.notFound "Session not found or access denied", db)
    | some (chatSession, db1) =>
      let contents := buildContents db1 chatSession.sessionId message
      match ai (modelCallPayload message) with
      | none => (.serverError "model call raised", db1)
      | some aiResponse =>
        let db2 := createMessage db1 chatSession.sessionId "user" message
        let db3 := createMessage db2 chatSession.sessionId "model" aiResponse
        let db4 := touchSession db3 chatSession.sessionId
        (.ok aiResponse chatSession.sessionId, db4)

inductive HistoryResponse where
  | ok (sessionId : String) (history : List (String × String × Nat))
  | notFound (error : String)
  deriving Repr, DecidableEq

/-- `get_chat_history` (`views.py` 215-245): resolves the session exactly like
`chat_with_ai` does and returns `(role, message, created_at)` triples ordered
by `created_at`. -/
def getChatHistory (db : ChatDb) (uid : Nat) (sid : String) : HistoryResponse :=
  match sessionGet db uid sid with
  | none => .notFound "Session not found or access denied"
  | some s =>
    .ok sid ((historyMessages db s.sessionId).map (fun m => (m.role, m.message, m.createdAt)))

structure SessionSummary where
  sessionId : String
  createdAt : Nat
  updatedAt : Nat
  messageCount : Nat
  lastMessage : Option String
  deriving Repr, DecidableEq

/-- `get_chat_sessions` (`views.py` 192-212): only `is_active=True` sessions of
the caller, most recently touched first, summarized with message count and
last message (the related manager orders messages by `created_at`). -/
def getChatSessions (db : ChatDb) (uid : Nat) : List SessionSummary :=
  (sortByKeyDesc (fun s => s.updatedAt)
      (db.sessions.filter (fun s => s.userId == uid && s.isActive))).map (fun s =>
    let msgs := historyMessages db s.sessionId
    { sessionId := s.sessionId, createdAt := s.createdAt, updatedAt := s.updatedAt,
      messageCount := msgs.length,
      lastMessage := msgs.getLast?.map (fun m => m.message) })

inductive ClearResponse where
  | ok (message : String)
  | badRequest (error : String)
  | notFound (error : String)
  deriving Repr, DecidableEq

/-- `clear_chat_session` (`views.py` 248-280): flips `is_active` to `False` and
saves (the save also refreshes `updated_at`, which is `auto_now`). -/
def clearChatSession (db : ChatDb) (uid : Nat) (sessionId : Option String) :
    ClearResponse × ChatDb :=
  match sessionId with
  | none => (.badRequest "session_id is required", db)
  | some sid =>
    match sessionGet db uid sid with
    | none => (.notFound "Session not found or access denied", db)
    | some s =>
      (.ok "Session cleared",
       { db with
         sessions := db.sessions.map (fun t =>
           if t.sessionId == sid then { t with isActive := false, updatedAt := db.clock }
           else t),
         clock := db.clock + 1 })

/-! ## `ai_tip_views.py`: the daily-tip cache -/

def FARMING_TIP_PROMPT : String := "
You are an expert agricultural advisor. Generate ONE practical, actionable farming tip.

Requirements:
- Keep it concise (2-3 sentences maximum, around 50-80 words)
- Make it practical and actionable
- Focus on one specific aspect (crop care, soil health, pest management, water conservation, etc.)
- Use simple, clear language
- Make it relevant for small to medium-scale farmers
- Don\x27t include greetings or sign-offs, just the tip itself

Generate a unique farming tip now:
"

/-- `DEFAULT_FALLBACK_TIPS` (`ai_tip_views.py` 38-44). -/
def DEFAULT_FALLBACK_TIPS : List String := [
  "Water your plants early in the morning to reduce water loss through evaporation. This also helps prevent fungal diseases that thrive in moist conditions during cooler evening hours.",
  "Rotate your crops each season to prevent soil nutrient depletion and reduce pest buildup. For example, follow nitrogen-fixing legumes with heavy feeders like corn or tomatoes.",
  "Apply mulch around your plants to retain soil moisture, regulate temperature, and suppress weeds. Organic mulches also improve soil health as they decompose.",
  "Monitor your crops regularly for early signs of pests or diseases. Early detection allows for quicker intervention and prevents widespread damage to your harvest.",
  "Test your soil pH annually to ensure optimal nutrient availability. Most crops thrive in slightly acidic to neutral soil (pH 6.0-7.0)."]

/-- One entry of Django's cache: key, value, and the `timeout` (in seconds) it
was stored with. -/
structure CacheEntry where
  key : String
  value : String
  timeout : Nat
  deriving Repr, DecidableEq

abbrev TipCache := List CacheEntry

/-- `cache.get(key)`: `None` on a miss. -/
def cacheGet (c : TipCache) (key : String) : Option String :=
  (c.find? (fun e => e.key == key)).map (fun e => e.value)

/-- `cache.set(key, value, timeout=…)`: replaces any entry under the key. -/
def cacheSet (c : TipCache) (key value : String) (timeout : Nat) : TipCache :=
  { key := key, value := value, timeout := timeout } :: c.filter (fun e => e.key != key)

/-- `f'farming_tip_{today}'` (`ai_tip_views.py` 61); calendar days are `Nat`,
with yesterday = `today - 1`. -/
def tipCacheKey (day : Nat) : String := "farming_tip_" ++ toString day

/-- The endpoint's payload.  `fallback` is `none` when the response carries no
`fallback` key (the cache-hit and fresh-generation responses omit it). -/
structure TipResponse where
  tip : String
  cached : Bool
  fallback : Option Bool
  date : Nat
  deriving Repr, DecidableEq

/-- The `try` block of `get_daily_farming_tip` (`ai_tip_views.py` 58-124).
`modelResult` is the Gemini oracle: the generated text, or `none` when
`model.generate_content` / `response.text` raises; a raise escaping the block
is modelled as `none` overall. -/
def getDailyFarmingTipTry (c : TipCache) (today : Nat) (modelResult : Option String) :
    Option (TipResponse × TipCache) :=
  match cacheGet c (tipCacheKey today) with
  | some cachedTip =>
    some ({ tip := cachedTip, cached := true, fallback := none, date := today }, c)
  | none =>
    match modelResult with
    | none => none
    | some text =>
      let tip := pyStrip text
      some ({ tip := tip, cached := false, fallback := none, date := today },
            cacheSet c (tipCacheKey today) tip (60 * 60 * 48))

/-- `get_daily_farming_tip` (`ai_tip_views.py` 47-174): the `try` block, and on
any exception the `except` branch — yesterday's cached tip if present, else
`random.choice(DEFAULT_FALLBACK_TIPS)` (`randIdx` is the choice oracle). -/
def getDailyFarmingTip (c : TipCache) (today : Nat) (modelResult : Option String)
    (randIdx : Fin 5) : TipResponse × TipCache :=
  match getDailyFarmingTipTry c today modelResult with
  | some r => r
  | none =>
    let yesterday := today - 1
    match cacheGet c (tipCacheKey yesterday) with
    | some yesterdayTip =>
      ({ tip := yesterdayTip, cached := true, fallback := some true, date := yesterday }, c)
    | none =>
      ({ tip := DEFAULT_FALLBACK_TIPS.get ⟨randIdx.1, randIdx.2⟩, cached := false,
         fallback := some true, date := today }, c)

/-! ## Data model: community feed (`models.py`) and `community_views.py` -/

/-- A `CommunityPost` row (`models.py` 192-231). -/
structure PostRow where
  id : Nat
  authorId : Nat
  content : String
  image : Option String
  tags : List String
  createdAt : Nat
  updatedAt : Nat
  deriving Repr, DecidableEq

/-- A `PostLike` row (`models.py` 234-254); `unique_together ['user', 'post']`. -/
structure PostLikeRow where
  userId : Nat
  postId : Nat
  createdAt : Nat
  deriving Repr, DecidableEq

/-- A `PostComment` row (`models.py` 257-278). -/
structure PostCommentRow where
  id : Nat
  userId : Nat
  postId : Nat
  content : String
  createdAt : Nat
  updatedAt : Nat
  deriving Repr, DecidableEq

structure FeedDb where
  posts : List PostRow
  likes : List PostLikeRow
  comments : List PostCommentRow
  clock : Nat
  deriving Repr, DecidableEq

/-- `CommunityPost.likes_count` (`models.py` 223-226): recomputed from
`self.likes.count()` on every read — there is no stored counter field. -/
def likesCount (db : FeedDb) (postId : Nat) : Nat :=
  (db.likes.filter (fun l => l.postId == postId)).length

/-- `CommunityPost.comments_count` (`models.py` 228-231). -/
def commentsCount (db : FeedDb) (postId : Nat) : Nat :=
  (db.comments.filter (fun c => c.postId == postId)).length

/-- The `like_exists` check of `toggle_post_like` (`community_views.py` 83-87). -/
def likedState (db : FeedDb) (uid pk : Nat) : Bool :=
  db.likes.any (fun l => l.userId == uid && l.postId == pk)

inductive ToggleResponse where
  | ok (message : String) (liked : Bool) (likesCount : Nat)
  | notFound (error : String)
  deriving Repr, DecidableEq

/-- `toggle_post_like` (`community_views.py` 69-104): flip semantics — delete
the `(user, post)` like row when it exists, create it otherwise; the response
reports the recomputed `post.likes.count()`. -/
def togglePostLike (db : FeedDb) (uid pk : Nat) : ToggleResponse × FeedDb :=
  match db.posts.find? (fun p => p.id == pk) with
  | none => (.notFound "Post not found", db)
  | some post =>
    let likeExists := db.likes.any (fun l => l.userId == uid && l.postId == post.id)
    if likeExists then
      let db1 := { db with
        likes := db.likes.filter (fun l => !(l.userId == uid && l.postId == post.id)) }
      (.ok "Post unliked" false (likesCount db1 post.id), db1)
    else
      let db1 := { db with
        likes := db.likes ++ [{ userId := uid, postId := post.id, createdAt := db.clock }],
        clock := db.clock + 1 }
      (.ok "Post liked" true (likesCount db1 post.id), db1)

/-- A DRF response reduced to what the claims consult: the HTTP status and the
error detail (when any). -/
structure DrfResponse where
  status : Nat
  error : Option String
  deriving Repr, DecidableEq

/-- `CommunityPostDetailView.perform_update` (`community_views.py` 56-60):
raises the *builtin* `PermissionError` when the caller is not the author;
`Except.error` models the raised exception. -/
def performUpdatePost (db : FeedDb) (uid : Nat) (post : PostRow) (newContent : String) :
    Except String FeedDb :=
  if post.authorId ≠ uid then .error "You can only edit your own posts"
  else .ok { db with
    posts := db.posts.map (fun p =>
      if p.id == post.id then { p with content := newContent, updatedAt := db.clock } else p),
    clock := db.clock + 1 }

/-- `CommunityPostDetailView.perform_destroy` (`community_views.py` 62-66);
deleting the post cascades to its likes and comments (`on_delete=CASCADE`). -/
def performDestroyPost (db : FeedDb) (uid : Nat) (post : PostRow) :
    Except String FeedDb :=
  if post.authorId ≠ uid then .error "You can only delete your own posts"
  else .ok { db with
    posts := db.posts.filter (fun p => !(p.id == post.id)),
    likes := db.likes.filter (fun l => !(l.postId == post.id)),
    comments := db.comments.filter (fun c => !(c.postId == post.id)) }

/-- PUT on `CommunityPostDetailView`.  Unlike `TutorialDetailView`
(`lms_views.py` 99-107), this view has no `try/except PermissionError`
override, and DRF's exception handler converts only `APIException`, `Http404`
and `django.core.exceptions.PermissionDenied`; the builtin `PermissionError`
raised by `perform_update` therefore escapes and surfaces as HTTP 500. -/
def communityPostUpdate (db : FeedDb) (uid pk : Nat) (newContent : String) :
    DrfResponse × FeedDb :=
  match db.posts.find? (fun p => p.id == pk) with
  | none => ({ status := 404, error := some "No CommunityPost matches the given query." }, db)
  | some post =>
    match performUpdatePost db uid post newContent with
    | .error e => ({ status := 500, error := some e }, db)
    | .ok db1 => ({ status := 200, error := none }, db1)

/-- DELETE on `CommunityPostDetailView`; same uncaught-`PermissionError`
situation as `communityPostUpdate`. -/
def communityPostDestroy (db : FeedDb) (uid pk : Nat) : DrfResponse × FeedDb :=
  match db.posts.find? (fun p => p.id == pk) with
  | none => ({ status := 404, error := some "No CommunityPost matches the given query." }, db)
  | some post =>
    match performDestroyPost db uid post with
    | .error e => ({ status := 500, error := some e }, db)
    | .ok db1 => ({ status := 204, error := none }, db1)

/-- `delete_comment` (`community_views.py` 135-160): 404 when the comment does
not exist under this post, an explicit 403 for a non-author, 204 on success. -/
def deleteComment (db : FeedDb) (uid pk commentId : Nat) : DrfResponse × FeedDb :=
  match db.comments.find? (fun c => c.id == commentId && c.postId == pk) with
  | none => ({ status := 404, error := some "Comment not found" }, db)
  | some comment =>
    if comment.userId ≠ uid then
      ({ status := 403, error := some "You can only delete your own comments" }, db)
    else
      ({ status := 204, error := none },
       { db with comments := db.comments.filter (fun c => !(c.id == comment.id)) })

/-! ## Data model: users and tutorials (`models.py`), `serializers.py`,
`lms_views.py` -/

/-- A `User` row reduced to the fields the tutorial claims consult
(`models.py` 16-77): `user_type` is a free string column whose choices are
`'farmer'` and `'extension_worker'`. -/
structure UserRow where
  id : Nat
  username : String
  userType : String
  deriving Repr, DecidableEq

/-- A `Tutorial` row (`models.py` 281-355). -/
structure TutorialRow where
  id : Nat
  uploaderId : Nat
  title : String
  description : String
  category : String
  viewCount : Int
  deriving Repr, DecidableEq

structure LmsDb where
  tutorials : List TutorialRow
  nextId : Nat
  deriving Repr, DecidableEq

/-- `TutorialSerializer.validate` (`serializers.py` 423-431): on a POST, a
caller whose `user_type` is not exactly `'extension_worker'` fails DRF
validation (`serializers.ValidationError`, surfaced as HTTP 400). -/
def tutorialSerializerValidate (user : UserRow) : Except String Unit :=
  if user.userType ≠ "extension_worker" then
    .error "Only extension workers can upload tutorials"
  else .ok ()

/-- `TutorialListCreateView.perform_create` (`lms_views.py` 45-62): re-checks
the role on the whitespace-stripped, lowercased string and raises
`PermissionError` otherwise; on success saves with the caller as uploader. -/
def tutorialPerformCreate (db : LmsDb) (user : UserRow)
    (title description category : String) : Except String LmsDb :=
  let userType := pyLower (pyStrip user.userType)
  if userType ≠ "extension_worker" then
    .error ("Only extension workers can upload tutorials. Your user type is: " ++ user.userType)
  else
    .ok { db with
      tutorials := db.tutorials ++
        [{ id := db.nextId, uploaderId := user.id, title := title,
           description := description, category := category, viewCount := 0 }],
      nextId := db.nextId + 1 }

/-- POST on `TutorialListCreateView` (`lms_views.py` 12-72).  DRF's
`CreateModelMixin.create` first runs `serializer.is_valid(raise_exception=True)`
— a `ValidationError` there answers HTTP 400 — and only then `perform_create`,
whose `PermissionError` the view's `create` override catches into HTTP 403.
(The field validators for video size/extension and category are taken as
passing; they could only add further 400s.) -/
def tutorialCreate (db : LmsDb) (user : UserRow) (title description category : String) :
    DrfResponse × LmsDb :=
  match tutorialSerializerValidate user with
  | .error e => ({ status := 400, error := some e }, db)
  | .ok () =>
    match tutorialPerformCreate db user title description category with
    | .error e => ({ status := 403, error := some e }, db)
    | .ok db1 => ({ status := 201, error := none }, db1)

/-- `Tutorial.increment_view_count` (`models.py` 345-348) run sequentially:
`self.view_count += 1` on the in-memory object, then
`save(update_fields=['view_count'])`. -/
def incrementViewCount (t : TutorialRow) : TutorialRow :=
  { t with viewCount := t.viewCount + 1 }

/-- `increment_views` (`lms_views.py` 120-139). -/
def incrementViews (db : LmsDb) (pk : Nat) : DrfResponse × LmsDb :=
  match db.tutorials.find? (fun t => t.id == pk) with
  | none => ({ status := 404, error := some "Tutorial not found" }, db)
  | some tutorial =>
    ({ status := 200, error := none },
     { db with tutorials := db.tutorials.map (fun t =>
         if t.id == tutorial.id then incrementViewCount t else t) })

/-! ## Concurrency model for `increment_view_count`

`increment_view_count` is two storage interactions, not one atomic update:
the ORM read that loaded `view_count` into the Python object, and the UPDATE
issued by `save(update_fields=['view_count'])` writing back the in-memory
value plus one (there is no `F('view_count') + 1` expression).  Two
concurrent requests interleave these steps over the shared row. -/

/-- The progress of one in-flight `increment_view_count` call. -/
inductive IncClient where
  | ready
  | loaded (v : Int)
  | finished
  deriving Repr, DecidableEq

/-- The shared tutorial row (`row` is its stored `view_count`) and two
concurrent `increment_view_count` calls. -/
structure IncSystem where
  row : Int
  a : IncClient
  b : IncClient
  deriving Repr, DecidableEq

/-- One scheduler step: the chosen client either performs its row read
(`SELECT`, loading the stored value) or its write-back
(`UPDATE … SET view_count = loaded + 1`); a finished client does nothing. -/
def stepSystem (s : IncSystem) (pickA : Bool) : IncSystem :=
  if pickA then
    match s.a with
    | .ready => { s with a := .loaded s.row }
    | .loaded v => { s with a := .finished, row := v + 1 }
    | .finished => s
  else
    match s.b with
    | .ready => { s with b := .loaded s.row }
    | .loaded v => { s with b := .finished, row := v + 1 }
    | .finished => s

def runSchedule (sched : List Bool) (s : IncSystem) : IncSystem :=
  sched.foldl stepSystem s

/-- Two concurrent `increment_view_count` calls on a row holding `initial`,
interleaved according to `sched`. -/
def twoIncrements (sched : List Bool) (initial : Int) : IncSystem :=
  runSchedule sched { row := initial, a := .ready, b := .ready }

/-! ## Helper lemmas about the chat flow -/

theorem mem_insertByKey {α : Type} (key : α → Nat) (a b : α) (l : List α) :
    b ∈ insertByKey key a l ↔ b = a ∨ b ∈ l := by
  induction l with
  | nil => simp [insertByKey]
  | cons c cs ih =>
    unfold insertByKey
    by_cases h : key a ≤ key c
    · simp [h]
    · simp [h, ih]
      tauto

theorem mem_sortByKey {α : Type} (key : α → Nat) (a : α) (l : List α) :
    a ∈ sortByKey key l ↔ a ∈ l := by
  induction l with
  | nil => simp [sortByKey]
  | cons b bs ih => simp [sortByKey, mem_insertByKey, ih]

/-- In a well-formed database `order_by('created_at')` is the identity on the
filtered message list: rows come back in append order. -/
theorem historyMessages_eq_filter (db : ChatDb) (sid : String) (h : db.WF) :
    historyMessages db sid = db.messages.filter (fun m => m.sessionId == sid) :=
  sortByKey_eq_self _ _ (List.Pairwise.filter _ h.1)

theorem sessionGet_mapIf (l : List ChatSessionRow) (uid : Nat) (sid : String)
    (f : ChatSessionRow → ChatSessionRow)
    (hs : ∀ t, (f t).sessionId = t.sessionId) (hu : ∀ t, (f t).userId = t.userId) :
    (l.map (fun t => if t.sessionId == sid then f t else t)).find?
        (fun t => t.sessionId == sid && t.userId == uid)
      = (l.find? (fun t => t.sessionId == sid && t.userId == uid)).map
          (fun t => if t.sessionId == sid then f t else t) := by
  rw [List.find?_map]
  have hpg : ((fun t : ChatSessionRow => t.sessionId == sid && t.userId == uid) ∘
      (fun t => if t.sessionId == sid then f t else t))
      = (fun t => t.sessionId == sid && t.userId == uid) := by
    funext t
    by_cases ht : t.sessionId == sid
    · simp [Function.comp, ht, hs, hu]
    · simp [Function.comp, ht]
  rw [hpg]

theorem sessionGet_touchSession (db : ChatDb) (uid : Nat) (sid : String) :
    sessionGet (touchSession db sid) uid sid
      = (sessionGet db uid sid).map (fun s =>
          if s.sessionId == sid then { s with updatedAt := db.clock } else s) := by
  unfold sessionGet touchSession
  exact sessionGet_mapIf _ _ _ _ (fun t => rfl) (fun t => rfl)

theorem sessionGet_pred (db : ChatDb) (uid : Nat) (sid : String) (s : ChatSessionRow)
    (h : sessionGet db uid sid = some s) : s.sessionId = sid ∧ s.userId = uid := by
  have hp := List.find?_some h
  simpa [Bool.and_eq_true] using hp

theorem sessionGet_touchSession_of_found (db : ChatDb) (uid : Nat) (sid : String)
    (s : ChatSessionRow) (h : sessionGet db uid sid = some s) :
    sessionGet (touchSession db sid) uid sid = some { s with updatedAt := db.clock } := by
  have hsid : s.sessionId = sid := (sessionGet_pred db uid sid s h).1
  rw [sessionGet_touchSession, h]
  simp [hsid]

theorem resolveSession_state (db : ChatDb) (uid : Nat) (so : Option String)
    (fresh : String) (s : ChatSessionRow) (db1 : ChatDb)
    (h : resolveSession db uid so fresh = some (s, db1)) :
    db1.messages = db.messages ∧ db.clock ≤ db1.clock := by
  cases so with
  | some sid =>
    simp only [resolveSession] at h
    cases hg : sessionGet db uid sid with
    | none => rw [hg] at h; cases h
    | some t =>
      rw [hg] at h
      cases h
      exact ⟨rfl, Nat.le_refl _⟩
  | none =>
    simp only [resolveSession] at h
    cases h
    exact ⟨rfl, Nat.le_succ _⟩

/-- Under the session-resolution hypothesis, `chat_with_ai` reduces to the
model call followed by either the two appends plus session touch, or the
generic 500. -/
theorem chatWithAi_eq (db : ChatDb) (uid : Nat) (body : ChatRequestBody)
    (fresh : String) (ai : List String → Option String)
    (hmsg : ¬ pyStrip body.message = "")
    (s : ChatSessionRow) (db1 : ChatDb)
    (hres : resolveSession db uid body.sessionId fresh = some (s, db1)) :
    chatWithAi db uid body fresh ai =
      match ai (modelCallPayload (pyStrip body.message)) with
      | none => (.serverError "model call raised", db1)
      | some reply =>
        (.ok reply s.sessionId,
         touchSession
           (createMessage (createMessage db1 s.sessionId "user" (pyStrip body.message))
             s.sessionId "model" reply) s.sessionId) := by
  unfold chatWithAi
  simp only [hres, if_neg hmsg]

theorem sessionGet_clearMap (db : ChatDb) (uid : Nat) (sid : String) :
    sessionGet { db with
        sessions := db.sessions.map (fun t =>
          if t.sessionId == sid then { t with isActive := false, updatedAt := db.clock }
          else t),
        clock := db.clock + 1 } uid sid
      = (sessionGet db uid sid).map (fun t =>
          if t.sessionId == sid then { t with isActive := false, updatedAt := db.clock }
          else t) := by
  unfold sessionGet
  exact sessionGet_mapIf _ _ _ _ (fun t => rfl) (fun t => rfl)

/-! ## Concrete fixtures -/

def exSession : ChatSessionRow :=
  { userId := 1, sessionId := "s1", createdAt := 0, updatedAt := 0, isActive := true }

def exDbEmpty : ChatDb := { sessions := [exSession], messages := [], clock := 1 }

def exDbHist : ChatDb :=
  { sessions := [exSession],
    messages :=
      [{ sessionId := "s1", role := "user",
         message := "I grow tomatoes on sandy soil", createdAt := 1 },
       { sessionId := "s1", role := "model",
         message := "Tomatoes on sandy soil need steady watering.", createdAt := 2 }],
    clock := 3 }

/-- Test oracle replying with exactly the text it was sent, exposing the
model-call payload in the turn's response. -/
def echoAi (sent : List String) : Option String :=
  some (String.intercalate "\n###\n" sent)

/-- Test oracle whose external call always raises. -/
def failAi (sent : List String) : Option String := none

/-! ## Claims about the chat flow -/

/-- **C1** — code bug in `chat_with_ai` (`views.py` 129-161).  The claim (and
the spec) say the stored transcript is replayed to the model; the code loads
the history and builds `contents` from it, but never passes `contents` to the
model: the Gemini chat is started with `history=[]` and receives only
`SYSTEM_INSTRUCTION` and the new message.  At the failing input — session
`s1` with a two-message transcript — an oracle that echoes back exactly what
it was sent replies with just the system instruction and the new message, and
the whole turn's response is identical to the response on an empty
transcript; the dead `contents` list, by contrast, does carry the three
conversation messages. -/
theorem chatWithAi_modelCall_ignores_transcript :
    (buildContents exDbHist "s1" "How often should I water them?").map Prod.snd
      = ["I grow tomatoes on sandy soil",
         "Tomatoes on sandy soil need steady watering.",
         "How often should I water them?"]
    ∧ (chatWithAi exDbHist 1 ⟨"How often should I water them?", some "s1"⟩
        "uuid-1" echoAi).1
      = .ok (String.intercalate "\n###\n"
          [SYSTEM_INSTRUCTION, "How often should I water them?"]) "s1"
    ∧ (chatWithAi exDbHist 1 ⟨"How often should I water them?", some "s1"⟩
        "uuid-1" echoAi).1
      = (chatWithAi exDbEmpty 1 ⟨"How often should I water them?", some "s1"⟩
          "uuid-1" echoAi).1 :=
  ⟨rfl, rfl, rfl⟩

/-- **C2**: on a chat turn whose session resolves (existing or freshly
created) with a non-empty message: if the model call succeeds, exactly the
two rows user-then-model are appended to the transcript, the turn answers 200
with the reply, and the session row's `updated_at` is refreshed to the save
time; if the model call raises, the transcript is unchanged and the turn
answers the generic HTTP 500; and `get_chat_history` returns a session's rows
in append (creation) order. -/
theorem chatTurn_appendsTwo_on_success_none_on_failure
    (db : ChatDb) (uid : Nat) (body : ChatRequestBody) (fresh : String)
    (ai : List String → Option String) (s : ChatSessionRow) (db1 : ChatDb)
    (hmsg : ¬ pyStrip body.message = "")
    (hres : resolveSession db uid body.sessionId fresh = some (s, db1)) :
    (∀ reply, ai (modelCallPayload (pyStrip body.message)) = some reply →
      (chatWithAi db uid body fresh ai).2.messages
        = db.messages
          ++ [{ sessionId := s.sessionId, role := "user",
                message := pyStrip body.message, createdAt := db1.clock },
              { sessionId := s.sessionId, role := "model",
                message := reply, createdAt := db1.clock + 1 }]
      ∧ (chatWithAi db uid body fresh ai).1 = .ok reply s.sessionId
      ∧ (sessionGet db1 uid s.sessionId = some s →
          sessionGet (chatWithAi db uid body fresh ai).2 uid s.sessionId
            = some { s with updatedAt := db1.clock + 2 }))
    ∧ (ai (modelCallPayload (pyStrip body.message)) = none →
        (chatWithAi db uid body fresh ai).2.messages = db.messages
        ∧ (chatWithAi db uid body fresh ai).1.status = 500)
    ∧ (∀ (d : ChatDb) (u : Nat) (sid : String), d.WF →
        ∀ t, sessionGet d u sid = some t →
          getChatHistory d u sid
            = .ok sid ((d.messages.filter (fun m => m.sessionId == t.sessionId)).map
                (fun m => (m.role, m.message, m.createdAt)))) := by
  have hmain := chatWithAi_eq db uid body fresh ai hmsg s db1 hres
  have hmsgs := (resolveSession_state db uid body.sessionId fresh s db1 hres).1
  refine ⟨?_, ?_, ?_⟩
  · intro reply hai
    rw [hmain, hai]
    refine ⟨?_, rfl, ?_⟩
    · simp [touchSession, createMessage, hmsgs]
    · intro hges
      exact sessionGet_touchSession_of_found _ uid s.sessionId s hges
  · intro hai
    rw [hmain, hai]
    exact ⟨hmsgs, rfl⟩
  · intro d u sid hWF t ht
    simp only [getChatHistory, ht]
    rw [historyMessages_eq_filter d t.sessionId hWF]

/-- Witness for C2 at concrete inputs: a successful turn on the empty `s1`
transcript appends the user and model rows, a failing turn leaves the
transcript unchanged and answers 500, and `get_chat_history` on the
two-message fixture returns the stored transcript in append order. -/
theorem chatTurn_appendsTwo_witness :
    (chatWithAi exDbEmpty 1 ⟨"Hello", some "s1"⟩ "uuid-2" echoAi).2.messages
      = [{ sessionId := "s1", role := "user", message := "Hello", createdAt := 1 },
         { sessionId := "s1", role := "model",
           message := String.intercalate "\n###\n" [SYSTEM_INSTRUCTION, "Hello"],
           createdAt := 2 }]
    ∧ (chatWithAi exDbEmpty 1 ⟨"Hello", some "s1"⟩ "uuid-2" failAi).2.messages = []
    ∧ (chatWithAi exDbEmpty 1 ⟨"Hello", some "s1"⟩ "uuid-2" failAi).1.status = 500
    ∧ getChatHistory exDbHist 1 "s1"
      = .ok "s1" [("user", "I grow tomatoes on sandy soil", 1),
                  ("model", "Tomatoes on sandy soil need steady watering.", 2)] := by
  have hOk := chatTurn_appendsTwo_on_success_none_on_failure exDbEmpty 1
      ⟨"Hello", some "s1"⟩ "uuid-2" echoAi exSession exDbEmpty (by decide) rfl
  have hFail := chatTurn_appendsTwo_on_success_none_on_failure exDbEmpty 1
      ⟨"Hello", some "s1"⟩ "uuid-2" failAi exSession exDbEmpty (by decide) rfl
  refine ⟨(hOk.1 _ rfl).1, (hFail.2.1 rfl).1, (hFail.2.1 rfl).2, ?_⟩
  exact hOk.2.2 exDbHist 1 "s1" (by refine ⟨?_, ?_, ?_, ?_⟩ <;> simp [exDbHist, exSession])
    exSession rfl

/-- **C8**: a chat request naming a `session_id` succeeds only when the
session exists *and* belongs to the caller.  The single hypothesis "no stored
session has this id together with this owner" covers both failure cases — no
such session at all, and a session that belongs to another user — and under
it `chat_with_ai` and `get_chat_history` answer one and the same constant 404
`Session not found or access denied` response, so the response does not
reveal whether the session exists. -/
theorem sessionLookup_notFound_uniform (db : ChatDb) (uid : Nat)
    (sid msg fresh : String) (ai : List String → Option String)
    (hmsg : ¬ pyStrip msg = "")
    (habs : ∀ s ∈ db.sessions, s.sessionId = sid → s.userId ≠ uid) :
    chatWithAi db uid ⟨msg, some sid⟩ fresh ai
      = (.notFound "Session not found or access denied", db)
    ∧ getChatHistory db uid sid = .notFound "Session not found or access denied"
    ∧ (chatWithAi db uid ⟨msg, some sid⟩ fresh ai).1.status = 404 := by
  have hget : sessionGet db uid sid = none := by
    unfold sessionGet
    rw [List.find?_eq_none]
    intro s hs
    simp only [Bool.and_eq_true, beq_iff_eq, not_and]
    exact habs s hs
  have hchat : chatWithAi db uid ⟨msg, some sid⟩ fresh ai
      = (.notFound "Session not found or access denied", db) := by
    unfold chatWithAi
    simp only [resolveSession, hget, if_neg hmsg]
  refine ⟨hchat, ?_, by rw [hchat]; rfl⟩
  unfold getChatHistory
  simp only [hget]

/-- Witness for C8: with the fixture holding exactly one session `s1` owned
by user 1, the unknown id `nope` (queried by its would-be owner) and the
existing id `s1` queried by user 2 produce literally the same 404 response,
for the turn endpoint and for the history endpoint. -/
theorem sessionLookup_notFound_uniform_witness :
    chatWithAi exDbEmpty 1 ⟨"Hi", some "nope"⟩ "u" echoAi
      = (.notFound "Session not found or access denied", exDbEmpty)
    ∧ chatWithAi exDbEmpty 2 ⟨"Hi", some "s1"⟩ "u" echoAi
      = (.notFound "Session not found or access denied", exDbEmpty)
    ∧ getChatHistory exDbEmpty 2 "s1"
      = .notFound "Session not found or access denied" := by
  have h1 := sessionLookup_notFound_uniform exDbEmpty 1 "nope" "Hi" "u" echoAi
      (by decide) (by decide)
  have h2 := sessionLookup_notFound_uniform exDbEmpty 2 "s1" "Hi" "u" echoAi
      (by decide) (by decide)
  exact ⟨h1.1, h2.1, h2.2.1⟩

/-- **C10**: `clear_chat_session` only flips `is_active` (plus the `auto_now`
timestamp), and only `get_chat_sessions` filters on that flag: after a clear,
the session no longer appears in the session list, yet a chat turn by the
owner on the cleared session still resolves it, succeeds on model success,
appends the two transcript rows, and `get_chat_history` returns exactly what
it returned before the clear. -/
theorem clearedSession_stillUsable (db : ChatDb) (uid : Nat) (sid : String)
    (s : ChatSessionRow) (msg fresh reply : String)
    (ai : List String → Option String)
    (hget : sessionGet db uid sid = some s)
    (hmsg : ¬ pyStrip msg = "")
    (hai : ai (modelCallPayload (pyStrip msg)) = some reply) :
    sessionGet (clearChatSession db uid (some sid)).2 uid sid
      = some { s with isActive := false, updatedAt := db.clock }
    ∧ (∀ summ ∈ getChatSessions (clearChatSession db uid (some sid)).2 uid,
        summ.sessionId ≠ sid)
    ∧ (chatWithAi (clearChatSession db uid (some sid)).2 uid ⟨msg, some sid⟩
        fresh ai).1 = .ok reply s.sessionId
    ∧ (chatWithAi (clearChatSession db uid (some sid)).2 uid ⟨msg, some sid⟩
        fresh ai).2.messages
        = db.messages
          ++ [{ sessionId := s.sessionId, role := "user", message := pyStrip msg,
                createdAt := db.clock + 1 },
              { sessionId := s.sessionId, role := "model", message := reply,
                createdAt := db.clock + 2 }]
    ∧ getChatHistory (clearChatSession db uid (some sid)).2 uid sid
        = getChatHistory db uid sid := by
  have hsid : s.sessionId = sid := (sessionGet_pred db uid sid s hget).1
  have hdb' : (clearChatSession db uid (some sid)).2
      = { db with
          sessions := db.sessions.map (fun t =>
            if t.sessionId == sid then { t with isActive := false, updatedAt := db.clock }
            else t),
          clock := db.clock + 1 } := by
    simp only [clearChatSession, hget]
  have hget' : sessionGet (clearChatSession db uid (some sid)).2 uid sid
      = some { s with isActive := false, updatedAt := db.clock } := by
    rw [hdb', sessionGet_clearMap, hget]
    simp [hsid]
  have hres' : resolveSession (clearChatSession db uid (some sid)).2 uid (some sid) fresh
      = some ({ s with isActive := false, updatedAt := db.clock },
              (clearChatSession db uid (some sid)).2) := by
    simp only [resolveSession, hget']
  have hmain := chatWithAi_eq (clearChatSession db uid (some sid)).2 uid
      ⟨msg, some sid⟩ fresh ai hmsg _ _ hres'
  refine ⟨hget', ?_, ?_, ?_, ?_⟩
  · intro summ hsumm
    unfold getChatSessions at hsumm
    obtain ⟨t, ht, hteq⟩ := List.mem_map.mp hsumm
    have ht2 : t ∈ ((clearChatSession db uid (some sid)).2).sessions.filter
        (fun u => u.userId == uid && u.isActive) := by
      have := (List.mem_reverse).mp ht
      exact (mem_sortByKey _ _ _).mp this
    have ht3 := List.mem_filter.mp ht2
    have hact : t.isActive = true := by
      have := ht3.2
      simp only [Bool.and_eq_true] at this
      exact this.2
    have ht4 : t ∈ db.sessions.map (fun u =>
        if u.sessionId == sid then { u with isActive := false, updatedAt := db.clock }
        else u) := by
      rw [hdb'] at ht3
      exact ht3.1
    obtain ⟨t0, ht0, hteq0⟩ := List.mem_map.mp ht4
    have hsummSid : summ.sessionId = t.sessionId := by rw [← hteq]
    rw [hsummSid]
    by_cases hc : t0.sessionId == sid
    · exfalso
      rw [if_pos hc] at hteq0
      rw [← hteq0] at hact
      simp at hact
    · rw [if_neg hc] at hteq0
      rw [← hteq0]
      simpa using hc
  · rw [hmain, hai]
  · rw [hmain, hai]
    have hm : ((clearChatSession db uid (some sid)).2).messages = db.messages := by
      rw [hdb']
    have hc : ((clearChatSession db uid (some sid)).2).clock = db.clock + 1 := by
      rw [hdb']
    simp [touchSession, createMessage, hm, hc, hsid]
  · unfold getChatHistory
    rw [hget', hget, hdb']
    rfl

/-- Witness for C10: clearing the two-message fixture session, the owner's
next turn on it still answers 200, the cleared session is gone from the
session list, and the stored history is unchanged. -/
theorem clearedSession_stillUsable_witness :
    sessionGet (clearChatSession exDbHist 1 (some "s1")).2 1 "s1"
      = some { exSession with isActive := false, updatedAt := 3 }
    ∧ (chatWithAi (clearChatSession exDbHist 1 (some "s1")).2 1 ⟨"Hi", some "s1"⟩
        "u" echoAi).1
      = .ok (String.intercalate "\n###\n" [SYSTEM_INSTRUCTION, "Hi"]) "s1"
    ∧ getChatHistory (clearChatSession exDbHist 1 (some "s1")).2 1 "s1"
      = getChatHistory exDbHist 1 "s1" := by
  have h := clearedSession_stillUsable exDbHist 1 "s1" exSession "Hi" "u"
      (String.intercalate "\n###\n" [SYSTEM_INSTRUCTION, "Hi"]) echoAi rfl
      (by decide) rfl
  exact ⟨h.1, h.2.2.1, h.2.2.2.2⟩

/-! ## Claims about the daily tip -/

theorem cacheGet_cacheSet_self (c : TipCache) (k v : String) (t : Nat) :
    cacheGet (cacheSet c k v t) k = some v := by
  simp [cacheGet, cacheSet, List.find?_cons_of_pos]

theorem find?_cacheSet_self (c : TipCache) (k v : String) (t : Nat) :
    (cacheSet c k v t).find? (fun e => e.key == k)
      = some { key := k, value := v, timeout := t } := by
  simp [cacheSet, List.find?_cons_of_pos]

/-- **C3**: `get_daily_farming_tip` never propagates an error to its caller:
an exception in the `try` block (the model call raising — `modelResult =
none` — on a cache miss) is caught, and the endpoint still serves a tip via
the degrade chain — today's cache, else fresh generation, else yesterday's
cache (`fallback=true`, `cached=true`), else one of the five fixed
`DEFAULT_FALLBACK_TIPS` picked by the `random.choice` index oracle
(`fallback=true`, `cached=false`).  The first conjunct classifies the served
tip for *every* combination of cache state, model outcome and random index. -/
theorem dailyTip_neverErrors_degradeChain (c : TipCache) (today : Nat)
    (modelResult : Option String) (randIdx : Fin 5) :
    ((getDailyFarmingTip c today modelResult randIdx).1.tip ∈ DEFAULT_FALLBACK_TIPS
      ∨ (∃ t, cacheGet c (tipCacheKey today) = some t
          ∧ (getDailyFarmingTip c today modelResult randIdx).1.tip = t)
      ∨ (∃ txt, modelResult = some txt
          ∧ (getDailyFarmingTip c today modelResult randIdx).1.tip = pyStrip txt)
      ∨ (∃ y, cacheGet c (tipCacheKey (today - 1)) = some y
          ∧ (getDailyFarmingTip c today modelResult randIdx).1.tip = y))
    ∧ (cacheGet c (tipCacheKey today) = none → modelResult = none →
        getDailyFarmingTipTry c today modelResult = none
        ∧ (∀ y, cacheGet c (tipCacheKey (today - 1)) = some y →
            getDailyFarmingTip c today modelResult randIdx
              = ({ tip := y, cached := true, fallback := some true,
                   date := today - 1 }, c))
        ∧ (cacheGet c (tipCacheKey (today - 1)) = none →
            getDailyFarmingTip c today modelResult randIdx
              = ({ tip := DEFAULT_FALLBACK_TIPS.get ⟨randIdx.1, randIdx.2⟩,
                   cached := false, fallback := some true, date := today }, c)
            ∧ DEFAULT_FALLBACK_TIPS.get ⟨randIdx.1, randIdx.2⟩
                ∈ DEFAULT_FALLBACK_TIPS)) := by
  constructor
  · unfold getDailyFarmingTip getDailyFarmingTipTry
    cases h1 : cacheGet c (tipCacheKey today) with
    | some t => exact Or.inr (Or.inl ⟨t, rfl, rfl⟩)
    | none =>
      cases h2 : modelResult with
      | some txt => exact Or.inr (Or.inr (Or.inl ⟨txt, rfl, rfl⟩))
      | none =>
        cases h3 : cacheGet c (tipCacheKey (today - 1)) with
        | some y => simp only [h3]; exact Or.inr (Or.inr (Or.inr ⟨y, rfl, rfl⟩))
        | none => simp only [h3]; exact Or.inl (List.get_mem _ _ _)
  · intro h1 h2
    refine ⟨?_, ?_, ?_⟩
    · unfold getDailyFarmingTipTry
      simp only [h1, h2]
    · intro y hy
      unfold getDailyFarmingTip getDailyFarmingTipTry
      simp only [h1, h2, hy]
    · intro hy
      unfold getDailyFarmingTip getDailyFarmingTipTry
      simp only [h1, h2, hy]
      exact ⟨trivial, List.get_mem _ _ _⟩

/-- Witness for C3: with an empty cache and a raising model call, the `try`
block fails, yet the endpoint serves fallback tip number 2 with
`fallback=true`, `cached=false`; with yesterday's tip cached it serves that
instead with `fallback=true`, `cached=true`. -/
theorem dailyTip_neverErrors_witness :
    getDailyFarmingTipTry [] 5 none = none
    ∧ getDailyFarmingTip [] 5 none ⟨2, by decide⟩
        = ({ tip := DEFAULT_FALLBACK_TIPS.get ⟨2, by decide⟩, cached := false,
             fallback := some true, date := 5 }, [])
    ∧ (getDailyFarmingTip [] 5 none ⟨2, by decide⟩).1.tip ∈ DEFAULT_FALLBACK_TIPS
    ∧ getDailyFarmingTip [{ key := tipCacheKey 4, value := "Mulch your beds.",
                            timeout := 172800 }] 5 none ⟨0, by decide⟩
        = ({ tip := "Mulch your beds.", cached := true, fallback := some true,
             date := 4 },
           [{ key := tipCacheKey 4, value := "Mulch your beds.", timeout := 172800 }]) := by
  have h := (dailyTip_neverErrors_degradeChain [] 5 none ⟨2, by decide⟩).2 rfl rfl
  have h2 := (dailyTip_neverErrors_degradeChain
      [{ key := tipCacheKey 4, value := "Mulch your beds.", timeout := 172800 }]
      5 none ⟨0, by decide⟩).2 rfl rfl
  refine ⟨h.1, (h.2.2 rfl).1, ?_, h2.2.1 "Mulch your beds." rfl⟩
  rw [(h.2.2 rfl).1]
  exact (h.2.2 rfl).2

/-- **C4**: the tip is cached per calendar day: a cache hit is returned
immediately with `cached=true` and an unchanged cache; a miss with successful
generation stores the stripped tip under today's key with a 48-hour retention
(longer than the one-day key granularity) and returns it with `cached=false`
— so a second call within the same day, whatever its model outcome, returns
the identical tip string with `cached=true`. -/
theorem dailyTip_sameDay_identical (c : TipCache) (today : Nat) :
    (∀ t (modelResult : Option String) (randIdx : Fin 5),
      cacheGet c (tipCacheKey today) = some t →
      getDailyFarmingTip c today modelResult randIdx
        = ({ tip := t, cached := true, fallback := none, date := today }, c))
    ∧ (∀ txt (randIdx : Fin 5), cacheGet c (tipCacheKey today) = none →
        (getDailyFarmingTip c today (some txt) randIdx).1
          = { tip := pyStrip txt, cached := false, fallback := none, date := today }
        ∧ ((getDailyFarmingTip c today (some txt) randIdx).2).find?
            (fun e => e.key == tipCacheKey today)
          = some { key := tipCacheKey today, value := pyStrip txt,
                   timeout := 60 * 60 * 48 }
        ∧ 60 * 60 * 48 > 60 * 60 * 24
        ∧ (∀ (modelResult2 : Option String) (randIdx2 : Fin 5),
            (getDailyFarmingTip (getDailyFarmingTip c today (some txt) randIdx).2
              today modelResult2 randIdx2).1
              = { tip := pyStrip txt, cached := true, fallback := none,
                  date := today })) := by
  constructor
  · intro t modelResult randIdx ht
    unfold getDailyFarmingTip getDailyFarmingTipTry
    simp only [ht]
  · intro txt randIdx hmiss
    have hstate : (getDailyFarmingTip c today (some txt) randIdx).2
        = cacheSet c (tipCacheKey today) (pyStrip txt) (60 * 60 * 48) := by
      unfold getDailyFarmingTip getDailyFarmingTipTry
      simp only [hmiss]
    refine ⟨?_, ?_, by decide, ?_⟩
    · unfold getDailyFarmingTip getDailyFarmingTipTry
      simp only [hmiss]
    · rw [hstate]
      exact find?_cacheSet_self c (tipCacheKey today) (pyStrip txt) (60 * 60 * 48)
    · intro modelResult2 randIdx2
      rw [hstate]
      unfold getDailyFarmingTip getDailyFarmingTipTry
      rw [cacheGet_cacheSet_self]

/-- Witness for C4: on day 5 with an empty cache and a model answer
`" Weed early. "`, the first call returns the stripped tip fresh
(`cached=false`), stores it for 48 h, and the second call the same day —
even with the model now failing — returns the identical string with
`cached=true`. -/
theorem dailyTip_sameDay_identical_witness :
    (getDailyFarmingTip [] 5 (some " Weed early. ") ⟨0, by decide⟩).1
      = { tip := "Weed early.", cached := false, fallback := none, date := 5 }
    ∧ ((getDailyFarmingTip [] 5 (some " Weed early. ") ⟨0, by decide⟩).2).find?
        (fun e => e.key == tipCacheKey 5)
      = some { key := tipCacheKey 5, value := "Weed early.", timeout := 172800 }
    ∧ (getDailyFarmingTip
        (getDailyFarmingTip [] 5 (some " Weed early. ") ⟨0, by decide⟩).2
        5 none ⟨3, by decide⟩).1
      = { tip := "Weed early.", cached := true, fallback := none, date := 5 } := by
  have h := (dailyTip_sameDay_identical [] 5).2 " Weed early. " ⟨0, by decide⟩ rfl
  exact ⟨h.1, h.2.1, h.2.2.2 none ⟨3, by decide⟩⟩

/-! ## Claims about the tutorial catalog -/

def farmerUser : UserRow := { id := 7, username := "ama", userType := "farmer" }

def workerUser : UserRow := { id := 8, username := "kofi", userType := "extension_worker" }

def exLmsDb : LmsDb := { tutorials := [], nextId := 1 }

/-- **C5** — counterexample to the claim as stated: a farmer's tutorial
creation attempt is rejected by `TutorialSerializer.validate` during
`is_valid(raise_exception=True)`, which surfaces as HTTP **400** (DRF
`ValidationError`), not the claimed 403; no row is created. -/
theorem tutorialCreate_farmer_400_not_403 :
    (tutorialCreate exLmsDb farmerUser "Composting" "How to compost" "crops").1.status = 400
    ∧ ¬ (tutorialCreate exLmsDb farmerUser "Composting" "How to compost" "crops").1.status
        = 403
    ∧ (tutorialCreate exLmsDb farmerUser "Composting" "How to compost" "crops").2
        = exLmsDb :=
  ⟨rfl, by decide, rfl⟩

/-- **C5** (amended): for every user whose `user_type` is not
`extension_worker`, tutorial creation fails — with an HTTP 400 validation
error from the serializer's role check (the 403 `PermissionError` branch in
`perform_create` is unreachable on create, because `is_valid` runs first) —
and no Tutorial row is created; a user with `user_type = extension_worker`
succeeds, the row being appended with them as uploader. -/
theorem tutorialCreate_roleGate (db : LmsDb) (u : UserRow)
    (title description category : String) :
    (u.userType ≠ "extension_worker" →
      (tutorialCreate db u title description category).1.status = 400
      ∧ (tutorialCreate db u title description category).2 = db)
    ∧ (u.userType = "extension_worker" →
      (tutorialCreate db u title description category).1.status = 201
      ∧ (tutorialCreate db u title description category).2.tutorials
        = db.tutorials ++ [{ id := db.nextId, uploaderId := u.id, title := title,
                             description := description, category := category,
                             viewCount := 0 }]) := by
  constructor
  · intro h
    unfold tutorialCreate tutorialSerializerValidate
    rw [if_pos h]
    exact ⟨rfl, rfl⟩
  · intro h
    unfold tutorialCreate tutorialSerializerValidate tutorialPerformCreate
    rw [if_neg (by simp [h]), h]
    rw [if_neg (by decide)]
    exact ⟨rfl, rfl⟩

/-- Witness for C5 (amended): the farmer fixture gets 400 and no row; the
extension-worker fixture gets 201 and the stored row. -/
theorem tutorialCreate_roleGate_witness :
    (tutorialCreate exLmsDb farmerUser "Drip irrigation" "Setup" "irrigation").1.status = 400
    ∧ (tutorialCreate exLmsDb farmerUser "Drip irrigation" "Setup" "irrigation").2 = exLmsDb
    ∧ (tutorialCreate exLmsDb workerUser "Drip irrigation" "Setup" "irrigation").1.status = 201
    ∧ (tutorialCreate exLmsDb workerUser "Drip irrigation" "Setup" "irrigation").2.tutorials
      = [{ id := 1, uploaderId := 8, title := "Drip irrigation",
           description := "Setup", category := "irrigation", viewCount := 0 }] := by
  have hf := (tutorialCreate_roleGate exLmsDb farmerUser "Drip irrigation" "Setup"
      "irrigation").1 (by decide)
  have hw := (tutorialCreate_roleGate exLmsDb workerUser "Drip irrigation" "Setup"
      "irrigation").2 rfl
  exact ⟨hf.1, hf.2, hw.1, hw.2⟩

/-! ## Claims about the community feed -/

def exPost : PostRow :=
  { id := 1, authorId := 1, content := "Maize is doing well this season",
    image := none, tags := ["maize"], createdAt := 0, updatedAt := 0 }

def exComment : PostCommentRow :=
  { id := 1, userId := 1, postId := 1, content := "Nice harvest ahead",
    createdAt := 0, updatedAt := 0 }

def exFeedDb : FeedDb :=
  { posts := [exPost], likes := [], comments := [exComment], clock := 1 }

/-- **C6** — counterexample to the claim as stated: for posts, the builtin
`PermissionError` raised by `perform_update` / `perform_destroy` in
`CommunityPostDetailView` is caught nowhere (unlike the tutorial views), so a
non-author's update or delete of a post surfaces as HTTP **500**, not the
claimed 403 — though the post is indeed left unmodified. -/
theorem postUpdate_nonOwner_500_not_403 :
    (communityPostUpdate exFeedDb 2 1 "defaced").1.status = 500
    ∧ ¬ (communityPostUpdate exFeedDb 2 1 "defaced").1.status = 403
    ∧ (communityPostUpdate exFeedDb 2 1 "defaced").2 = exFeedDb
    ∧ (communityPostDestroy exFeedDb 2 1).1.status = 500
    ∧ (communityPostDestroy exFeedDb 2 1).2 = exFeedDb :=
  ⟨rfl, by decide, rfl, rfl, rfl⟩

/-- **C6** (amended): update/delete succeed only for the author and a
violation always leaves the entity unmodified, but the error class differs by
entity: a non-author's post update/delete raises an uncaught builtin
`PermissionError` that surfaces as HTTP 500, while a non-author's comment
delete answers the explicit HTTP 403; the author's own mutations succeed. -/
theorem ownershipGate_mutations (db : FeedDb) (uid pk cid : Nat)
    (newContent : String) :
    (∀ post, db.posts.find? (fun p => p.id == pk) = some post → post.authorId ≠ uid →
      communityPostUpdate db uid pk newContent
        = ({ status := 500, error := some "You can only edit your own posts" }, db)
      ∧ communityPostDestroy db uid pk
        = ({ status := 500, error := some "You can only delete your own posts" }, db))
    ∧ (∀ comment,
        db.comments.find? (fun c => c.id == cid && c.postId == pk) = some comment →
        comment.userId ≠ uid →
        deleteComment db uid pk cid
          = ({ status := 403, error := some "You can only delete your own comments" }, db))
    ∧ (∀ post, db.posts.find? (fun p => p.id == pk) = some post → post.authorId = uid →
        (communityPostUpdate db uid pk newContent).1.status = 200
        ∧ (communityPostDestroy db uid pk).1.status = 204)
    ∧ (∀ comment,
        db.comments.find? (fun c => c.id == cid && c.postId == pk) = some comment →
        comment.userId = uid → (deleteComment db uid pk cid).1.status = 204) := by
  refine ⟨?_, ?_, ?_, ?_⟩
  · intro post hfind hne
    unfold communityPostUpdate communityPostDestroy performUpdatePost performDestroyPost
    simp only [hfind, if_pos hne]
    exact ⟨trivial, trivial⟩
  · intro comment hfind hne
    unfold deleteComment
    simp only [hfind, if_pos hne]
  · intro post hfind heq
    unfold communityPostUpdate communityPostDestroy performUpdatePost performDestroyPost
    simp only [hfind, if_neg (not_not_intro heq)]
    exact ⟨trivial, trivial⟩
  · intro comment hfind heq
    unfold deleteComment
    simp only [hfind, if_neg (not_not_intro heq)]

/-- Witness for C6 (amended): user 2 hitting user 1's post gets the 500 of
the escaped `PermissionError` and the db is unchanged; user 2 deleting user
1's comment gets 403; user 1's own update/delete succeed. -/
theorem ownershipGate_mutations_witness :
    communityPostUpdate exFeedDb 2 1 "edited"
      = ({ status := 500, error := some "You can only edit your own posts" }, exFeedDb)
    ∧ deleteComment exFeedDb 2 1 1
      = ({ status := 403, error := some "You can only delete your own comments" }, exFeedDb)
    ∧ (communityPostUpdate exFeedDb 1 1 "edited").1.status = 200
    ∧ (deleteComment exFeedDb 1 1 1).1.status = 204 := by
  have h2 := ownershipGate_mutations exFeedDb 2 1 1 "edited"
  have h1 := ownershipGate_mutations exFeedDb 1 1 1 "edited"
  exact ⟨(h2.1 exPost rfl (by decide)).1, h2.2.1 exComment rfl (by decide),
         (h1.2.2.1 exPost rfl rfl).1, h1.2.2.2 exComment rfl rfl⟩

/-! ## Claims about the like toggle -/

theorem any_filter_not {α : Type} (p : α → Bool) (l : List α) :
    (l.filter (fun x => !p x)).any p = false := by
  rw [List.any_eq_false]
  intro x hx
  have hm := List.mem_filter.mp hx
  have : p x = false := by
    have := hm.2
    simpa using this
  simp [this]

theorem filter_not_of_any_false {α : Type} (p : α → Bool) (l : List α)
    (h : l.any p = false) : l.filter (fun x => !p x) = l := by
  rw [List.filter_eq_self]
  intro a ha
  have hpa := List.any_eq_false.mp h a ha
  cases hp : p a with
  | false => simp [hp]
  | true => exact absurd hp hpa

/-- `toggle_post_like` never changes the post table. -/
theorem togglePostLike_posts (db : FeedDb) (uid pk : Nat) :
    (togglePostLike db uid pk).2.posts = db.posts := by
  unfold togglePostLike
  cases h : db.posts.find? (fun p => p.id == pk) with
  | none => rfl
  | some post =>
    by_cases hl : db.likes.any (fun l => l.userId == uid && l.postId == post.id)
    · simp [hl]
    · simp [hl]

/-- A toggle by a user who has not liked the post appends exactly their like
row and reports `liked=true`. -/
theorem togglePostLike_notLiked (db : FeedDb) (uid pk : Nat) (post : PostRow)
    (hfind : db.posts.find? (fun p => p.id == pk) = some post)
    (hnl : likedState db uid pk = false) :
    togglePostLike db uid pk
      = (.ok "Post liked" true
          (likesCount { db with
              likes := db.likes ++ [{ userId := uid, postId := pk, createdAt := db.clock }],
              clock := db.clock + 1 } pk),
         { db with
           likes := db.likes ++ [{ userId := uid, postId := pk, createdAt := db.clock }],
           clock := db.clock + 1 }) := by
  have hpk : post.id = pk := by simpa using List.find?_some hfind
  have hnl' : db.likes.any (fun l => l.userId == uid && l.postId == pk) = false := hnl
  unfold togglePostLike
  simp only [hfind, hpk, hnl']
  rfl

/-- A toggle by a user who has liked the post deletes their like row(s) and
reports `liked=false`. -/
theorem togglePostLike_liked (db : FeedDb) (uid pk : Nat) (post : PostRow)
    (hfind : db.posts.find? (fun p => p.id == pk) = some post)
    (hl : likedState db uid pk = true) :
    togglePostLike db uid pk
      = (.ok "Post unliked" false
          (likesCount { db with
              likes := db.likes.filter (fun l => !(l.userId == uid && l.postId == pk)) } pk),
         { db with
           likes := db.likes.filter (fun l => !(l.userId == uid && l.postId == pk)) }) := by
  have hpk : post.id = pk := by simpa using List.find?_some hfind
  have hl' : db.likes.any (fun l => l.userId == uid && l.postId == pk) = true := hl
  unfold togglePostLike
  simp only [hfind, hpk, hl']
  rfl

/-- Two successive toggles by the same user restore the liked state; the
second toggle is an ordinary 200 answer, and from the unliked state the like
table returns exactly to its starting contents. -/
theorem toggle_involution (db : FeedDb) (uid pk : Nat) (post : PostRow)
    (hfind : db.posts.find? (fun p => p.id == pk) = some post) :
    likedState (togglePostLike (togglePostLike db uid pk).2 uid pk).2 uid pk
      = likedState db uid pk
    ∧ (∃ m l c, (togglePostLike (togglePostLike db uid pk).2 uid pk).1
        = ToggleResponse.ok m l c)
    ∧ (likedState db uid pk = false →
        (togglePostLike (togglePostLike db uid pk).2 uid pk).2.likes = db.likes) := by
  cases hl : likedState db uid pk with
  | false =>
    have h1 := togglePostLike_notLiked db uid pk post hfind hl
    have hl0 : db.likes.any (fun l => l.userId == uid && l.postId == pk) = false := hl
    have hstep : (togglePostLike db uid pk).2
        = { db with
            likes := db.likes ++ [{ userId := uid, postId := pk, createdAt := db.clock }],
            clock := db.clock + 1 } := by rw [h1]
    have hl1 : likedState (togglePostLike db uid pk).2 uid pk = true := by
      rw [hstep]
      simp [likedState, List.any_append]
    have h2 := togglePostLike_liked (togglePostLike db uid pk).2 uid pk post
        (by rw [hstep]; exact hfind) hl1
    have hlikes : (togglePostLike (togglePostLike db uid pk).2 uid pk).2.likes
        = db.likes := by
      rw [h2]
      simp only [hstep]
      rw [List.filter_append, filter_not_of_any_false _ _ hl0]
      simp
    refine ⟨?_, ?_, fun _ => hlikes⟩
    · show ((togglePostLike (togglePostLike db uid pk).2 uid pk).2.likes).any
          (fun l => l.userId == uid && l.postId == pk) = false
      rw [hlikes]
      exact hl0
    · exact ⟨_, _, _, by rw [h2]⟩
  | true =>
    have h1 := togglePostLike_liked db uid pk post hfind hl
    have hstep : (togglePostLike db uid pk).2
        = { db with
            likes := db.likes.filter (fun l => !(l.userId == uid && l.postId == pk)) } := by
      rw [h1]
    have hl1 : likedState (togglePostLike db uid pk).2 uid pk = false := by
      rw [hstep]
      exact any_filter_not _ _
    have h2 := togglePostLike_notLiked (togglePostLike db uid pk).2 uid pk post
        (by rw [hstep]; exact hfind) hl1
    refine ⟨?_, ⟨_, _, _, by rw [h2]⟩, ?_⟩
    · simp only [h2]
      simp [likedState, List.any_append]
    · intro hfalse
      exact absurd hfalse (by decide)

/-- Replaying one toggle per user over a list of users. -/
def foldToggles (db : FeedDb) (users : List Nat) (pk : Nat) : FeedDb :=
  users.foldl (fun d u => (togglePostLike d u pk).2) db

/-- One toggle each by distinct users, none of whom had liked the post,
raises `likes_count` by the number of users. -/
theorem foldToggles_count (pk : Nat) (post : PostRow) :
    ∀ (vs : List Nat) (db : FeedDb),
      db.posts.find? (fun p => p.id == pk) = some post →
      vs.Nodup →
      (∀ u ∈ vs, likedState db u pk = false) →
      likesCount (foldToggles db vs pk) pk = likesCount db pk + vs.length
  | [], db, _, _, _ => by simp [foldToggles]
  | u :: rest, db, hfind, hnodup, hnl => by
    have hnlu : likedState db u pk = false := hnl u (List.mem_cons_self u rest)
    have h1 := togglePostLike_notLiked db u pk post hfind hnlu
    have hstep : (togglePostLike db u pk).2
        = { db with
            likes := db.likes ++ [{ userId := u, postId := pk, createdAt := db.clock }],
            clock := db.clock + 1 } := by rw [h1]
    have hnodup1 : rest.Nodup := (List.nodup_cons.mp hnodup).2
    have hnotin : u ∉ rest := (List.nodup_cons.mp hnodup).1
    have hnl1 : ∀ v ∈ rest, likedState (togglePostLike db u pk).2 v pk = false := by
      intro v hv
      have hvne : (u == v) = false :=
        beq_eq_false_iff_ne.mpr (fun hh => hnotin (hh ▸ hv))
      have hbase : db.likes.any (fun l => l.userId == v && l.postId == pk) = false :=
        hnl v (List.mem_cons_of_mem _ hv)
      rw [hstep]
      simp [likedState, List.any_append, hbase, hvne]
    have hres : likesCount (foldToggles ((togglePostLike db u pk).2) rest pk) pk
        = likesCount ((togglePostLike db u pk).2) pk + rest.length :=
      foldToggles_count pk post rest _
        (by rw [togglePostLike_posts]; exact hfind) hnodup1 hnl1
    have hcount : likesCount ((togglePostLike db u pk).2) pk
        = likesCount db pk + 1 := by
      rw [hstep]
      simp [likesCount, List.filter_append]
    calc likesCount (foldToggles db (u :: rest) pk) pk
        = likesCount (foldToggles ((togglePostLike db u pk).2) rest pk) pk := rfl
      _ = likesCount ((togglePostLike db u pk).2) pk + rest.length := hres
      _ = likesCount db pk + 1 + rest.length := by rw [hcount]
      _ = likesCount db pk + (u :: rest).length := by
            rw [List.length_cons]
            omega

/-- The `likes_count` reported by a successful toggle equals the count
recomputed from the like rows of the resulting state. -/
theorem toggleResponse_count_live (db : FeedDb) (uid pk : Nat) (m : String)
    (l : Bool) (c : Nat) (h : (togglePostLike db uid pk).1 = .ok m l c) :
    c = likesCount (togglePostLike db uid pk).2 pk := by
  cases hfind : db.posts.find? (fun p => p.id == pk) with
  | none =>
    have hnf : togglePostLike db uid pk = (.notFound "Post not found", db) := by
      unfold togglePostLike
      rw [hfind]
    rw [hnf] at h
    simp at h
  | some post =>
    cases hl : likedState db uid pk with
    | true =>
      have h1 := togglePostLike_liked db uid pk post hfind hl
      rw [h1] at h ⊢
      simp only [ToggleResponse.ok.injEq] at h
      exact h.2.2.symm
    | false =>
      have h1 := togglePostLike_notLiked db uid pk post hfind hl
      rw [h1] at h ⊢
      simp only [ToggleResponse.ok.injEq] at h
      exact h.2.2.symm

/-- **C7**: the like toggle is an involution on the liked state (the second
toggle by the same user restores the original state and is an ordinary 200
answer, and from the unliked state the like table returns to exactly its
original contents); after one toggle each by distinct users, none of whom had
liked the post, `likes_count` rises by the number of users *whatever the
toggle order* (any permutation); and the count a toggle reports is recomputed
live from the like rows of the resulting state — there is no stored
counter. -/
theorem likeToggle_involution_and_count :
    (∀ (db : FeedDb) (uid pk : Nat) (post : PostRow),
      db.posts.find? (fun p => p.id == pk) = some post →
      likedState (togglePostLike (togglePostLike db uid pk).2 uid pk).2 uid pk
          = likedState db uid pk
      ∧ (∃ m l c, (togglePostLike (togglePostLike db uid pk).2 uid pk).1
          = ToggleResponse.ok m l c)
      ∧ (likedState db uid pk = false →
          (togglePostLike (togglePostLike db uid pk).2 uid pk).2.likes = db.likes))
    ∧ (∀ (db : FeedDb) (pk : Nat) (post : PostRow) (us vs : List Nat),
        db.posts.find? (fun p => p.id == pk) = some post →
        us.Nodup → vs.Perm us →
        (∀ u ∈ us, likedState db u pk = false) →
        likesCount (foldToggles db vs pk) pk = likesCount db pk + us.length)
    ∧ (∀ (db : FeedDb) (uid pk : Nat) (m : String) (l : Bool) (c : Nat),
        (togglePostLike db uid pk).1 = ToggleResponse.ok m l c →
        c = likesCount (togglePostLike db uid pk).2 pk) := by
  refine ⟨toggle_involution, ?_, toggleResponse_count_live⟩
  intro db pk post us vs hfind hnodup hperm hnl
  have hvnodup : vs.Nodup := hperm.nodup_iff.mpr hnodup
  have hvnl : ∀ u ∈ vs, likedState db u pk = false :=
    fun u hu => hnl u (hperm.mem_iff.mp hu)
  rw [foldToggles_count pk post vs db hfind hvnodup hvnl, hperm.length_eq]

/-- Witness for C7: user 2 toggling twice on the fixture post returns to the
unliked state with an untouched like table; three distinct users toggling
once each yield `likes_count = 3` in either order; a single toggle reports
the live count 1. -/
theorem likeToggle_involution_and_count_witness :
    likedState (togglePostLike (togglePostLike exFeedDb 2 1).2 2 1).2 2 1 = false
    ∧ (togglePostLike (togglePostLike exFeedDb 2 1).2 2 1).2.likes = []
    ∧ likesCount (foldToggles exFeedDb [4, 2, 3] 1) 1 = 3
    ∧ likesCount (foldToggles exFeedDb [2, 3, 4] 1) 1 = 3
    ∧ ((togglePostLike exFeedDb 2 1).1 = ToggleResponse.ok "Post liked" true 1
        → 1 = likesCount (togglePostLike exFeedDb 2 1).2 1) := by
  have h := likeToggle_involution_and_count
  refine ⟨?_, ?_, ?_, ?_, ?_⟩
  · exact (h.1 exFeedDb 2 1 exPost rfl).1
  · exact (h.1 exFeedDb 2 1 exPost rfl).2.2 rfl
  · exact h.2.1 exFeedDb 1 exPost [2, 3, 4] [4, 2, 3] rfl (by decide) (by decide)
      (by decide)
  · exact h.2.1 exFeedDb 1 exPost [2, 3, 4] [2, 3, 4] rfl (by decide) (List.Perm.refl _)
      (by decide)
  · exact h.2.2 exFeedDb 2 1 "Post liked" true 1

/-! ## Claims about concurrent view-count increments -/

/-- **C9** — counterexample to the claim as stated: `increment_view_count`
(`models.py` 345-348) is `self.view_count += 1` on the in-memory object
followed by `save`, a read-modify-write with no storage-layer atomic
increment (`F('view_count') + 1` is never used).  The interleaving A-read,
B-read, A-write, B-write of two concurrent increments on a row holding 0
completes both calls yet leaves `view_count = 1`, not the claimed 2 — a lost
update. -/
theorem viewCountIncrement_lostUpdate :
    (twoIncrements [true, false, true, false] 0).a = IncClient.finished
    ∧ (twoIncrements [true, false, true, false] 0).b = IncClient.finished
    ∧ (twoIncrements [true, false, true, false] 0).row = 1
    ∧ ¬ (twoIncrements [true, false, true, false] 0).row = 0 + 2 :=
  ⟨rfl, rfl, rfl, by decide⟩

/-- **C9** (amended): the view-count increment is a two-step
read-then-write, not an atomic storage operation: when the two requests are
serialized, each read sees the other's write and the row rises by exactly two
— the same result as two applications of `increment_view_count` — but the
overlapped schedule, where both clients read before either writes, finishes
both requests with the row risen by only one (a lost update). -/
theorem viewCountIncrement_schedules (n : Int) :
    (twoIncrements [true, true, false, false] n).row = n + 2
    ∧ (twoIncrements [true, true, false, false] n).row
      = (incrementViewCount (incrementViewCount
          { id := 0, uploaderId := 0, title := "", description := "",
            category := "", viewCount := n })).viewCount
    ∧ (twoIncrements [true, false, true, false] n).row = n + 1
    ∧ (twoIncrements [true, false, true, false] n).a = IncClient.finished
    ∧ (twoIncrements [true, false, true, false] n).b = IncClient.finished := by
  refine ⟨?_, rfl, rfl, rfl, rfl⟩
  show n + 1 + 1 = n + 2
  omega

end AgriGuide
